import Mathlib

/-
Verification of the feature-engineering pipeline of this repository.

The embedding below follows `src/colab_feature_engineering_full.py` (the
complete, defensive implementation containing `engineer_features` and
`process_data`).  Where the legacy condensed duplicate
`src/colab_feature_engineering.py` computes a feature differently (raw,
uncapped injury counts; raw sentiment; a literal 0.17 wind default), a second
definition `condensedFeaturesOf` embeds that variant.

Modelling conventions:
  * pandas rows become structures; nullable score columns become `Option Int`
    (`none` models null/NaN, so `pd.notna` becomes `Option.isSome`);
  * the mutable `team_stats` dict becomes a total store `Nat → TeamState`;
    lazy creation of an all-zero entry on first sight of a team id is a
    no-op under this model, because absent keys already read as `initTeam`;
  * every single in-place field mutation of the Python loop becomes one
    point update `upd` of the store, applied in the source's exact order, so
    that the aliased case `home_team_id = away_team_id` (where both dict
    references point to the same record) is reproduced faithfully;
  * float arithmetic is idealised as exact `ℚ`/`ℝ` arithmetic; `np.tanh`
    becomes `Real.tanh`;
  * `pd.to_datetime(game['created_at']).hour / dayofweek / month` are modelled
    as three given fields of the game row (timestamp parsing is external);
  * the pandas groupby lookups for player stats and weather are modelled as
    given finite maps (their construction is pure pandas plumbing); the
    injury-count and sentiment-mean lookups, which the claims are about, are
    built from embedded tables by `buildInjuries` / `buildSentiment`.
-/

/-- A row of the games table: ids, nullable final scores and the
timestamp-derived components consumed by the time features. -/
structure Game where
  id : Nat
  home_team_id : Nat
  away_team_id : Nat
  home_score : Option Int
  away_score : Option Int
  hour : Nat
  dayofweek : Nat
  month : Nat
  deriving DecidableEq, Repr

/-- Rolling per-team statistics, mirroring the dict initialised at
lines 66-79 of `colab_feature_engineering_full.py` (same field names). -/
structure TeamState where
  games : Nat
  wins : Nat
  losses : Nat
  points_for : Int
  points_against : Int
  recent_form : List Nat
  home_games : Nat
  home_wins : Nat
  away_games : Nat
  away_wins : Nat
  streak : Int
  rest_days : Nat
  deriving DecidableEq, Repr

/-- The all-zero state a team is created with on first encounter. -/
def initTeam : TeamState :=
  { games := 0, wins := 0, losses := 0, points_for := 0, points_against := 0
    recent_form := [], home_games := 0, home_wins := 0, away_games := 0
    away_wins := 0, streak := 0, rest_days := 0 }

/-- The team-state store (`team_stats` dict), as a total map: keys never
seen read as the freshly initialised `initTeam`. -/
abbrev Store := Nat → TeamState

/-- The empty store at the start of a processing pass. -/
def initStore : Store := fun _ => initTeam

/-- One in-place field mutation of a single team's record. -/
def upd (st : Store) (t : Nat) (f : TeamState → TeamState) : Store :=
  fun u => if u = t then f (st u) else st u

/-- Python slice `l[-n:]`: the last at most `n` elements of `l`. -/
def lastN (n : Nat) (l : List α) : List α := l.drop (l.length - n)

/-- Arithmetic mean of a list of naturals (`np.mean`), as a rational. -/
def listMean (l : List Nat) : ℚ := (l.sum : ℚ) / (l.length : ℚ)

/-- The state update performed for a game with both scores present
(lines 161-195 of `colab_feature_engineering_full.py`): each Python
statement mutating `home_stats`/`away_stats` becomes one `upd`,
in the source's exact order. -/
def updateStates (st : Store) (hid aid : Nat) (hsc asc : Int) : Store :=
  let s1 := upd st hid (fun x => { x with games := x.games + 1 })
  let s2 := upd s1 aid (fun x => { x with games := x.games + 1 })
  let s3 := upd s2 hid (fun x => { x with points_for := x.points_for + hsc })
  let s4 := upd s3 hid (fun x => { x with points_against := x.points_against + asc })
  let s5 := upd s4 aid (fun x => { x with points_for := x.points_for + asc })
  let s6 := upd s5 aid (fun x => { x with points_against := x.points_against + hsc })
  let s7 := upd s6 hid (fun x => { x with home_games := x.home_games + 1 })
  let s8 := upd s7 aid (fun x => { x with away_games := x.away_games + 1 })
  let s9 :=
    if hsc > asc then
      let t1 := upd s8 hid (fun x => { x with wins := x.wins + 1 })
      let t2 := upd t1 aid (fun x => { x with losses := x.losses + 1 })
      let t3 := upd t2 hid (fun x => { x with home_wins := x.home_wins + 1 })
      let t4 := upd t3 hid (fun x => { x with recent_form := x.recent_form ++ [1] })
      let t5 := upd t4 aid (fun x => { x with recent_form := x.recent_form ++ [0] })
      let t6 := upd t5 hid (fun x => { x with streak := if x.streak > 0 then x.streak + 1 else 1 })
      upd t6 aid (fun x => { x with streak := if x.streak > 0 then -1 else x.streak - 1 })
    else
      let t1 := upd s8 hid (fun x => { x with losses := x.losses + 1 })
      let t2 := upd t1 aid (fun x => { x with wins := x.wins + 1 })
      let t3 := upd t2 aid (fun x => { x with away_wins := x.away_wins + 1 })
      let t4 := upd t3 hid (fun x => { x with recent_form := x.recent_form ++ [0] })
      let t5 := upd t4 aid (fun x => { x with recent_form := x.recent_form ++ [1] })
      let t6 := upd t5 hid (fun x => { x with streak := if x.streak > 0 then -1 else x.streak - 1 })
      upd t6 aid (fun x => { x with streak := if x.streak > 0 then x.streak + 1 else 1 })
  let s10 := upd s9 hid (fun x => { x with recent_form := lastN 10 x.recent_form })
  upd s10 aid (fun x => { x with recent_form := lastN 10 x.recent_form })

/-- The leakage-free snapshot captured at emission time: the game, its two
unwrapped scores, and both teams' states as read before the update. -/
structure Snapshot where
  game : Game
  hsc : Int
  asc : Int
  home : TeamState
  away : TeamState
  deriving DecidableEq, Repr

/-- One loop iteration of `engineer_features` (lines 59-195): if either score
is null the game contributes nothing; otherwise the pre-update states are
read, a snapshot is emitted when both teams have at least 5 games, and the
state update is applied in every scored case. -/
def stepGame (st : Store) (g : Game) : Store × Option Snapshot :=
  match g.home_score, g.away_score with
  | some hsc, some asc =>
    let home_stats := st g.home_team_id
    let away_stats := st g.away_team_id
    if home_stats.games ≥ 5 ∧ away_stats.games ≥ 5 then
      (updateStates st g.home_team_id g.away_team_id hsc asc,
        some { game := g, hsc := hsc, asc := asc, home := home_stats, away := away_stats })
    else
      (updateStates st g.home_team_id g.away_team_id hsc asc, none)
  | _, _ => (st, none)

/-- The full chronological pass over the games table, threading the store and
collecting emitted snapshots in order. -/
def processGames : Store → List Game → Store × List Snapshot
  | st, [] => (st, [])
  | st, g :: rest =>
    let p := stepGame st g
    let q := processGames p.1 rest
    (q.1, p.2.toList ++ q.2)

/-- The snapshots emitted by a whole run started from the empty store; the
produced feature matrix and label list are their images under
`featuresOf` and `labelOf`. -/
def emits (gs : List Game) : List Snapshot := (processGames initStore gs).2

/-- Label rule, line 159: `1 if game['home_score'] > game['away_score'] else 0`. -/
def labelOf (s : Snapshot) : Nat := if s.hsc > s.asc then 1 else 0

/-- Per-game player-stat aggregate: the `('points', 'mean')` and
`('points', 'sum')` entries of one group of `stats_by_game`; either key can
be absent when the points column is missing. -/
structure StatsAgg where
  points_mean : Option ℚ
  points_sum : Option ℚ

/-- One weather row as stored in `weather_by_game`; either field may be
absent from the row's dict. -/
structure WeatherRow where
  temperature : Option ℚ
  wind_speed : Option ℚ

/-- The four read-only lookup structures built before the game loop
(lines 20-53 of `colab_feature_engineering_full.py`). -/
structure Lookups where
  stats_by_game : Nat → Option StatsAgg
  injuries_by_team : Nat → Option Nat
  weather_by_game : Nat → Option WeatherRow
  sentiment_by_team : Nat → Option ℚ

/-- Injury lookup builder, line 40: `injuries_df.groupby('team_id').size()`
keyed by team id over the whole table; teams with no rows are absent. -/
def buildInjuries (tbl : List Nat) : Nat → Option Nat := fun t =>
  let c := (tbl.filter (fun r => r = t)).length
  if c = 0 then none else some c

/-- Sentiment lookup builder, line 53:
`sentiment_df.groupby('team_id')['sentiment_score'].mean()` over the whole
table; teams with no rows are absent. -/
def buildSentiment (tbl : List (Nat × ℚ)) : Nat → Option ℚ := fun t =>
  let vs := (tbl.filter (fun r => r.1 = t)).map (fun r => r.2)
  if vs.length = 0 then none else some (vs.sum / (vs.length : ℚ))

/-- Recent-form feature (lines 103-107 of the full file): the last five
entries of `recent_form` when at least five exist, the whole list otherwise;
mean of that slice, or the neutral prior 0.5 when it is empty. -/
def recentFormFeature (rf : List Nat) : ℚ :=
  let recent := if 5 ≤ rf.length then lastN 5 rf else rf
  if recent = [] then 1 / 2 else listMean recent

/-- Condensed-variant recent-form feature
(`colab_feature_engineering.py` lines 79-80): emptiness is tested on the whole
list, the mean is taken over the `[-5:]` slice. -/
def condensedFormFeature (rf : List Nat) : ℚ :=
  if rf = [] then 1 / 2 else listMean (lastN 5 rf)

/-- The 23-element feature vector of the canonical implementation
(lines 88-155 of `colab_feature_engineering_full.py`), computed from an
emission snapshot and the lookup structures.  Rational intermediate values
are cast into `ℝ`; `np.tanh` is `Real.tanh`. -/
noncomputable def featuresOf (lk : Lookups) (s : Snapshot) : List ℝ :=
  [(((s.home.wins : ℚ) / (s.home.games : ℚ) : ℚ) : ℝ),
   (((s.away.wins : ℚ) / (s.away.games : ℚ) : ℚ) : ℝ),
   (((s.home.points_for : ℚ) / (s.home.games : ℚ) : ℚ) : ℝ),
   (((s.away.points_for : ℚ) / (s.away.games : ℚ) : ℚ) : ℝ),
   (((s.home.points_against : ℚ) / (s.home.games : ℚ) : ℚ) : ℝ),
   (((s.away.points_against : ℚ) / (s.away.games : ℚ) : ℚ) : ℝ),
   ((recentFormFeature s.home.recent_form : ℚ) : ℝ),
   ((recentFormFeature s.away.recent_form : ℚ) : ℝ),
   (((s.home.wins : ℚ) / (s.home.games : ℚ) - (s.away.wins : ℚ) / (s.away.games : ℚ) : ℚ) : ℝ),
   ((((s.home.points_for - s.home.points_against : Int) : ℚ) / (s.home.games : ℚ) : ℚ) : ℝ),
   ((((s.away.points_for - s.away.points_against : Int) : ℚ) / (s.away.games : ℚ) : ℚ) : ℝ),
   (((match lk.stats_by_game s.game.id with
      | some ag => (ag.points_mean.getD 0) / 20
      | none => 0 : ℚ)) : ℝ),
   (((match lk.stats_by_game s.game.id with
      | some ag => (ag.points_sum.getD 0) / 200
      | none => 0 : ℚ)) : ℝ),
   ((min (((lk.injuries_by_team s.game.home_team_id).getD 0 : ℚ) / 5) 1 : ℚ) : ℝ),
   ((min (((lk.injuries_by_team s.game.away_team_id).getD 0 : ℚ) / 5) 1 : ℚ) : ℝ),
   (((match lk.weather_by_game s.game.id with
      | some w => w.temperature.getD 72
      | none => (72 : ℚ)) / 100 : ℚ) : ℝ),
   (((match lk.weather_by_game s.game.id with
      | some w => w.wind_speed.getD 5
      | none => (5 : ℚ)) / 30 : ℚ) : ℝ),
   Real.tanh (((lk.sentiment_by_team s.game.home_team_id).getD 0 : ℚ) : ℝ),
   Real.tanh (((lk.sentiment_by_team s.game.away_team_id).getD 0 : ℚ) : ℝ),
   (((s.game.hour : ℚ) / 24 : ℚ) : ℝ),
   (((s.game.dayofweek : ℚ) / 7 : ℚ) : ℝ),
   (((s.game.month : ℚ) / 12 : ℚ) : ℝ),
   (1 : ℝ)]

/-- The 23-element feature vector of the legacy condensed variant
(`colab_feature_engineering.py` lines 69-112).  Differences from the
canonical file: raw (uncapped, unscaled) injury counts at positions 14-15,
raw sentiment (no tanh) at 18-19, a literal 0.17 wind default, and raw
player-stat aggregates.  (The source's stray `[0]` subscript on the scalar
aggregate at lines 90-91 is modelled as the aggregate value itself.)  All
entries are rational, so the vector is kept in `ℚ`. -/
def condensedFeaturesOf (lk : Lookups) (s : Snapshot) : List ℚ :=
  [((s.home.wins : ℚ) / (s.home.games : ℚ)),
   ((s.away.wins : ℚ) / (s.away.games : ℚ)),
   ((s.home.points_for : ℚ) / (s.home.games : ℚ)),
   ((s.away.points_for : ℚ) / (s.away.games : ℚ)),
   ((s.home.points_against : ℚ) / (s.home.games : ℚ)),
   ((s.away.points_against : ℚ) / (s.away.games : ℚ)),
   condensedFormFeature s.home.recent_form,
   condensedFormFeature s.away.recent_form,
   ((s.home.wins : ℚ) / (s.home.games : ℚ) - (s.away.wins : ℚ) / (s.away.games : ℚ)),
   (((s.home.points_for - s.home.points_against : Int) : ℚ) / (s.home.games : ℚ)),
   (((s.away.points_for - s.away.points_against : Int) : ℚ) / (s.away.games : ℚ)),
   (match lk.stats_by_game s.game.id with
    | some ag => ag.points_mean.getD 0
    | none => 0),
   (match lk.stats_by_game s.game.id with
    | some ag => ag.points_sum.getD 0
    | none => 0),
   ((lk.injuries_by_team s.game.home_team_id).getD 0 : ℚ),
   ((lk.injuries_by_team s.game.away_team_id).getD 0 : ℚ),
   (match lk.weather_by_game s.game.id with
    | some w => (w.temperature.getD 72) / 100
    | none => 72 / 100),
   (match lk.weather_by_game s.game.id with
    | some w => (w.wind_speed.getD 5) / 30
    | none => 17 / 100),
   ((lk.sentiment_by_team s.game.home_team_id).getD 0),
   ((lk.sentiment_by_team s.game.away_team_id).getD 0),
   ((s.game.hour : ℚ) / 24),
   ((s.game.dayofweek : ℚ) / 7),
   ((s.game.month : ℚ) / 12),
   1]

/-- The whole `engineer_features` pass of the canonical file: build the
lookup structures once from the auxiliary inputs, run the chronological
game loop, and return the feature matrix together with the label list.
Argument order follows the source signature
`(games_df, stats_df, injuries_df, weather_df, sentiment_df)`. -/
noncomputable def engineer_features (gs : List Game) (sm : Nat → Option StatsAgg)
    (injTbl : List Nat) (wm : Nat → Option WeatherRow) (stbl : List (Nat × ℚ)) :
    List (List ℝ) × List Nat :=
  let lk : Lookups :=
    { stats_by_game := sm, injuries_by_team := buildInjuries injTbl
      weather_by_game := wm, sentiment_by_team := buildSentiment stbl }
  ((emits gs).map (featuresOf lk), (emits gs).map labelOf)

/-- The legacy condensed pipeline: identical game loop and state machine
(its per-game update touches the same shared fields in the same order and
its warm-up gate is the same test), but the condensed feature formulas. -/
def condensed_engineer_features (gs : List Game) (sm : Nat → Option StatsAgg)
    (injTbl : List Nat) (wm : Nat → Option WeatherRow) (stbl : List (Nat × ℚ)) :
    List (List ℚ) × List Nat :=
  let lk : Lookups :=
    { stats_by_game := sm, injuries_by_team := buildInjuries injTbl
      weather_by_game := wm, sentiment_by_team := buildSentiment stbl }
  ((emits gs).map (condensedFeaturesOf lk), (emits gs).map labelOf)

/-- The `process_data` entry point (lines 200-232 of the full file), up to
the boundary with the out-of-scope splitting/scaling stage: engineer the
features and fail fatally when zero samples were produced, otherwise hand
the non-empty matrix on. -/
noncomputable def process_data (gs : List Game) (sm : Nat → Option StatsAgg)
    (injTbl : List Nat) (wm : Nat → Option WeatherRow) (stbl : List (Nat × ℚ)) :
    Except String (List (List ℝ) × List Nat) :=
  let Xy := engineer_features gs sm injTbl wm stbl
  if Xy.1.length = 0 then Except.error "No features created! Check your data."
  else Except.ok Xy

/-- Helper for building concrete game rows in the worked example. -/
def mkGame (gid h a : Nat) (hsc asc : Option Int) : Game :=
  { id := gid, home_team_id := h, away_team_id := a, home_score := hsc
    away_score := asc, hour := 12, dayofweek := 3, month := 6 }

/-- Worked example: seven finished games between teams 1 (home) and 2 (away).
After the first five games both teams have five games of history, so games 6
and 7 are emitted.  Game 3 is a tie. -/
def gsW : List Game :=
  [mkGame 1 1 2 (some 3) (some 1),
   mkGame 2 1 2 (some 1) (some 2),
   mkGame 3 1 2 (some 2) (some 2),
   mkGame 4 1 2 (some 5) (some 0),
   mkGame 5 1 2 (some 0) (some 1),
   mkGame 6 1 2 (some 4) (some 2),
   mkGame 7 1 2 (some 1) (some 3)]

/-- Team 1's rolling state after the five warm-up games of `gsW`. -/
def team1After5 : TeamState :=
  { games := 5, wins := 2, losses := 3, points_for := 11, points_against := 6
    recent_form := [1, 0, 0, 1, 0], home_games := 5, home_wins := 2
    away_games := 0, away_wins := 0, streak := -1, rest_days := 0 }

/-- Team 2's rolling state after the five warm-up games of `gsW`. -/
def team2After5 : TeamState :=
  { games := 5, wins := 3, losses := 2, points_for := 6, points_against := 11
    recent_form := [0, 1, 1, 0, 1], home_games := 0, home_wins := 0
    away_games := 5, away_wins := 3, streak := 1, rest_days := 0 }

/-- The snapshot emitted for game 6 of `gsW`. -/
def snapW1 : Snapshot :=
  { game := mkGame 6 1 2 (some 4) (some 2), hsc := 4, asc := 2
    home := team1After5, away := team2After5 }

/-- Team 1's rolling state after six games of `gsW`. -/
def team1After6 : TeamState :=
  { games := 6, wins := 3, losses := 3, points_for := 15, points_against := 8
    recent_form := [1, 0, 0, 1, 0, 1], home_games := 6, home_wins := 3
    away_games := 0, away_wins := 0, streak := 1, rest_days := 0 }

/-- Team 2's rolling state after six games of `gsW`. -/
def team2After6 : TeamState :=
  { games := 6, wins := 3, losses := 3, points_for := 8, points_against := 15
    recent_form := [0, 1, 1, 0, 1, 0], home_games := 0, home_wins := 0
    away_games := 6, away_wins := 3, streak := -1, rest_days := 0 }

/-- The snapshot emitted for game 7 of `gsW`. -/
def snapW2 : Snapshot :=
  { game := mkGame 7 1 2 (some 1) (some 3), hsc := 1, asc := 3
    home := team1After6, away := team2After6 }

/-- An injuries table with seven rows for team 1, used to exhibit the
uncapped injury feature of the condensed variant. -/
def injTblC : List Nat := [1, 1, 1, 1, 1, 1, 1]

/-- An empty/absent player-stat lookup for the worked examples. -/
def smW : Nat → Option StatsAgg := fun _ => none

/-- An empty/absent weather lookup for the worked examples. -/
def wmW : Nat → Option WeatherRow := fun _ => none

/-- The lookup structures a run on `injTblC` (seven injury rows for team 1)
and otherwise empty auxiliary tables builds before its game loop. -/
def lkC : Lookups :=
  { stats_by_game := smW, injuries_by_team := buildInjuries injTblC
    weather_by_game := wmW, sentiment_by_team := buildSentiment [] }

/-- Closed form of `updateStates` at the home team when the two team ids are
distinct: the subsequence of mutations addressed to `home_stats`, in source
order. -/
def homeUpdate (hsc asc : Int) (x : TeamState) : TeamState :=
  let x1 := { x with games := x.games + 1 }
  let x2 := { x1 with points_for := x1.points_for + hsc }
  let x3 := { x2 with points_against := x2.points_against + asc }
  let x4 := { x3 with home_games := x3.home_games + 1 }
  let x5 :=
    if hsc > asc then
      let y1 := { x4 with wins := x4.wins + 1 }
      let y2 := { y1 with home_wins := y1.home_wins + 1 }
      let y3 := { y2 with recent_form := y2.recent_form ++ [1] }
      { y3 with streak := if y3.streak > 0 then y3.streak + 1 else 1 }
    else
      let y1 := { x4 with losses := x4.losses + 1 }
      let y2 := { y1 with recent_form := y1.recent_form ++ [0] }
      { y2 with streak := if y2.streak > 0 then -1 else y2.streak - 1 }
  { x5 with recent_form := lastN 10 x5.recent_form }

/-- Closed form of `updateStates` at the away team when the two team ids are
distinct. -/
def awayUpdate (hsc asc : Int) (x : TeamState) : TeamState :=
  let x1 := { x with games := x.games + 1 }
  let x2 := { x1 with points_for := x1.points_for + asc }
  let x3 := { x2 with points_against := x2.points_against + hsc }
  let x4 := { x3 with away_games := x3.away_games + 1 }
  let x5 :=
    if hsc > asc then
      let y1 := { x4 with losses := x4.losses + 1 }
      let y2 := { y1 with recent_form := y1.recent_form ++ [0] }
      { y2 with streak := if y2.streak > 0 then -1 else y2.streak - 1 }
    else
      let y1 := { x4 with wins := x4.wins + 1 }
      let y2 := { y1 with away_wins := y1.away_wins + 1 }
      let y3 := { y2 with recent_form := y2.recent_form ++ [1] }
      { y3 with streak := if y3.streak > 0 then y3.streak + 1 else 1 }
  { x5 with recent_form := lastN 10 x5.recent_form }

/-- Closed form of `updateStates` at the shared team when
`home_team_id = away_team_id`: in the source both dict references alias one
record, so every mutation of the step lands on it, in order. -/
def bothUpdate (hsc asc : Int) (x : TeamState) : TeamState :=
  let x1 := { x with games := x.games + 1 }
  let x2 := { x1 with games := x1.games + 1 }
  let x3 := { x2 with points_for := x2.points_for + hsc }
  let x4 := { x3 with points_against := x3.points_against + asc }
  let x5 := { x4 with points_for := x4.points_for + asc }
  let x6 := { x5 with points_against := x5.points_against + hsc }
  let x7 := { x6 with home_games := x6.home_games + 1 }
  let x8 := { x7 with away_games := x7.away_games + 1 }
  let x9 :=
    if hsc > asc then
      let y1 := { x8 with wins := x8.wins + 1 }
      let y2 := { y1 with losses := y1.losses + 1 }
      let y3 := { y2 with home_wins := y2.home_wins + 1 }
      let y4 := { y3 with recent_form := y3.recent_form ++ [1] }
      let y5 := { y4 with recent_form := y4.recent_form ++ [0] }
      let y6 := { y5 with streak := if y5.streak > 0 then y5.streak + 1 else 1 }
      { y6 with streak := if y6.streak > 0 then -1 else y6.streak - 1 }
    else
      let y1 := { x8 with losses := x8.losses + 1 }
      let y2 := { y1 with wins := y1.wins + 1 }
      let y3 := { y2 with away_wins := y2.away_wins + 1 }
      let y4 := { y3 with recent_form := y3.recent_form ++ [0] }
      let y5 := { y4 with recent_form := y4.recent_form ++ [1] }
      let y6 := { y5 with streak := if y5.streak > 0 then -1 else y5.streak - 1 }
      { y6 with streak := if y6.streak > 0 then y6.streak + 1 else 1 }
  let x10 := { x9 with recent_form := lastN 10 x9.recent_form }
  { x10 with recent_form := lastN 10 x10.recent_form }

/-- The per-team invariant maintained by the game loop: the win and loss
counters partition the games counter, and the form window holds exactly
`min games 10` outcomes. -/
def stateInv (x : TeamState) : Prop :=
  x.wins + x.losses = x.games ∧ x.recent_form.length = min x.games 10

/-- The invariant, for every team id in the store. -/
def storeInv (st : Store) : Prop := ∀ t, stateInv (st t)

theorem upd_apply (st : Store) (t : Nat) (f : TeamState → TeamState) (u : Nat) :
    upd st t f u = if u = t then f (st u) else st u := rfl

/-- A team that takes no part in the game is left untouched by the update. -/
theorem updateStates_apply_other (st : Store) (hid aid : Nat) (hsc asc : Int)
    (t : Nat) (h1 : t ≠ hid) (h2 : t ≠ aid) :
    updateStates st hid aid hsc asc t = st t := by
  by_cases hw : hsc > asc <;>
    simp [updateStates, upd_apply, hw, h1, h2]

/-- Closed form of the update at the home team, distinct ids. -/
theorem updateStates_apply_home (st : Store) (hid aid : Nat) (hsc asc : Int)
    (hne : hid ≠ aid) :
    updateStates st hid aid hsc asc hid = homeUpdate hsc asc (st hid) := by
  by_cases hw : hsc > asc <;>
    simp [updateStates, homeUpdate, upd_apply, hw, hne]

/-- Closed form of the update at the away team, distinct ids. -/
theorem updateStates_apply_away (st : Store) (hid aid : Nat) (hsc asc : Int)
    (hne : hid ≠ aid) :
    updateStates st hid aid hsc asc aid = awayUpdate hsc asc (st aid) := by
  by_cases hw : hsc > asc <;>
    simp [updateStates, awayUpdate, upd_apply, hw, hne, Ne.symm hne]

/-- Closed form of the update at the shared team when both ids coincide. -/
theorem updateStates_apply_both (st : Store) (hid : Nat) (hsc asc : Int) :
    updateStates st hid hid hsc asc hid = bothUpdate hsc asc (st hid) := by
  by_cases hw : hsc > asc <;>
    simp [updateStates, bothUpdate, upd_apply, hw]

theorem lastN_length (n : Nat) (l : List α) :
    (lastN n l).length = min n l.length := by
  simp [lastN]
  omega

theorem homeUpdate_inv (hsc asc : Int) (x : TeamState) (h : stateInv x) :
    stateInv (homeUpdate hsc asc x) := by
  obtain ⟨h1, h2⟩ := h
  by_cases hw : hsc > asc <;>
    simp [homeUpdate, stateInv, hw, lastN_length] <;>
    omega

theorem awayUpdate_inv (hsc asc : Int) (x : TeamState) (h : stateInv x) :
    stateInv (awayUpdate hsc asc x) := by
  obtain ⟨h1, h2⟩ := h
  by_cases hw : hsc > asc <;>
    simp [awayUpdate, stateInv, hw, lastN_length] <;>
    omega

theorem bothUpdate_inv (hsc asc : Int) (x : TeamState) (h : stateInv x) :
    stateInv (bothUpdate hsc asc x) := by
  obtain ⟨h1, h2⟩ := h
  by_cases hw : hsc > asc <;>
    simp [bothUpdate, stateInv, hw, lastN_length] <;>
    omega

theorem updateStates_inv (st : Store) (hid aid : Nat) (hsc asc : Int)
    (h : storeInv st) : storeInv (updateStates st hid aid hsc asc) := by
  intro t
  by_cases heq : hid = aid
  · subst heq
    by_cases ht : t = hid
    · subst ht
      rw [updateStates_apply_both]
      exact bothUpdate_inv _ _ _ (h t)
    · rw [updateStates_apply_other st hid hid hsc asc t ht ht]
      exact h t
  · by_cases ht : t = hid
    · subst ht
      rw [updateStates_apply_home st t aid hsc asc heq]
      exact homeUpdate_inv _ _ _ (h t)
    · by_cases ht2 : t = aid
      · subst ht2
        rw [updateStates_apply_away st hid t hsc asc heq]
        exact awayUpdate_inv _ _ _ (h t)
      · rw [updateStates_apply_other st hid aid hsc asc t ht ht2]
        exact h t

theorem stepGame_fst_inv (st : Store) (g : Game) (h : storeInv st) :
    storeInv (stepGame st g).1 := by
  cases hh : g.home_score <;> cases ha : g.away_score <;>
    simp [stepGame, hh, ha, h]
  · split <;> exact updateStates_inv _ _ _ _ _ h

theorem processGames_fst_inv (st : Store) (gs : List Game) (h : storeInv st) :
    storeInv (processGames st gs).1 := by
  induction gs generalizing st with
  | nil => simpa [processGames] using h
  | cons g rest ih =>
    simpa [processGames] using ih _ (stepGame_fst_inv st g h)

theorem initStore_inv : storeInv initStore := by
  intro t
  simp [initStore, initTeam, stateInv]

theorem stepGame_snd_eq_some (st : Store) (g : Game) (s : Snapshot)
    (h : (stepGame st g).2 = some s) :
    s.home = st g.home_team_id ∧ s.away = st g.away_team_id ∧
      5 ≤ s.home.games ∧ 5 ≤ s.away.games := by
  cases hh : g.home_score with
  | none => simp [stepGame, hh] at h
  | some hsc =>
    cases ha : g.away_score with
    | none => simp [stepGame, hh, ha] at h
    | some asc =>
      by_cases hg : (st g.home_team_id).games ≥ 5 ∧ (st g.away_team_id).games ≥ 5
      · simp only [stepGame, hh, ha, if_pos hg, Option.some.injEq] at h
        subst h
        exact ⟨rfl, rfl, hg.1, hg.2⟩
      · simp [stepGame, hh, ha, hg] at h

theorem stepGame_fst_scored (st : Store) (g : Game) (hsc asc : Int)
    (h1 : g.home_score = some hsc) (h2 : g.away_score = some asc) :
    (stepGame st g).1 = updateStates st g.home_team_id g.away_team_id hsc asc := by
  by_cases hg : (st g.home_team_id).games ≥ 5 ∧ (st g.away_team_id).games ≥ 5 <;>
    simp [stepGame, h1, h2, hg]

/-- Every emitted snapshot records pre-game states that passed the warm-up
gate and satisfy the per-team invariant. -/
theorem processGames_snd_mem (gs : List Game) : ∀ st : Store, storeInv st →
    ∀ s ∈ (processGames st gs).2,
      5 ≤ s.home.games ∧ 5 ≤ s.away.games ∧ stateInv s.home ∧ stateInv s.away := by
  induction gs with
  | nil => intro st _ s hs; simp [processGames] at hs
  | cons g rest ih =>
    intro st h s hs
    simp only [processGames, List.mem_append] at hs
    rcases hs with hs | hs
    · have h2 : (stepGame st g).2 = some s := by
        cases ho : (stepGame st g).2 <;> simp [ho] at hs <;> simp [hs]
      obtain ⟨he1, he2, he3, he4⟩ := stepGame_snd_eq_some st g s h2
      exact ⟨he3, he4, he1 ▸ h g.home_team_id, he2 ▸ h g.away_team_id⟩
    · exact ih _ (stepGame_fst_inv st g h) s hs

theorem recentFormFeature_eq_of_len (rf : List Nat) (h : 5 ≤ rf.length) :
    recentFormFeature rf = listMean (lastN 5 rf) := by
  have hlen : (lastN 5 rf).length = 5 := by rw [lastN_length]; omega
  have hne : lastN 5 rf ≠ [] := by
    intro hc; rw [hc] at hlen; simp at hlen
  simp [recentFormFeature, h, hne]

/-- C1: for every game with both scores present, a (feature vector, label)
pair is emitted if and only if both participating teams' games counters are
at least 5 in the state before the game is applied; in either case the
state update is still performed for both teams. -/
theorem claim1_warmup_gate (st : Store) (g : Game) (hsc asc : Int)
    (h1 : g.home_score = some hsc) (h2 : g.away_score = some asc) :
    ((stepGame st g).2.isSome ↔
      5 ≤ (st g.home_team_id).games ∧ 5 ≤ (st g.away_team_id).games)
    ∧ (stepGame st g).1 = updateStates st g.home_team_id g.away_team_id hsc asc := by
  refine ⟨?_, stepGame_fst_scored st g hsc asc h1 h2⟩
  by_cases hg : (st g.home_team_id).games ≥ 5 ∧ (st g.away_team_id).games ≥ 5 <;>
    simp [stepGame, h1, h2, hg]

/-- C2: for every team id and after every prefix of the game sequence, the
win and loss counters sum to the games counter and the recent-form window
holds at most 10 entries. -/
theorem claim2_counter_invariant (gs : List Game) (k t : Nat) :
    ((processGames initStore (gs.take k)).1 t).wins +
        ((processGames initStore (gs.take k)).1 t).losses =
      ((processGames initStore (gs.take k)).1 t).games
    ∧ ((processGames initStore (gs.take k)).1 t).recent_form.length ≤ 10 := by
  obtain ⟨h1, h2⟩ := processGames_fst_inv initStore (gs.take k) initStore_inv t
  exact ⟨h1, by omega⟩

/-- C3: for every emitted pair the label is 1 exactly when the home score
strictly exceeds the away score; equal scores yield label 0 (an away win,
never a third class). -/
theorem claim3_label_rule (gs : List Game) (s : Snapshot) (h : s ∈ emits gs) :
    (labelOf s = 1 ↔ s.asc < s.hsc) ∧ (s.hsc = s.asc → labelOf s = 0) := by
  constructor
  · by_cases hw : s.asc < s.hsc <;> simp [labelOf, hw]
  · intro he; simp [labelOf, he]

/-- C4: a game with a null home or away score emits nothing, leaves every
team's rolling state untouched, and processing continues with the rest of
the sequence. -/
theorem claim4_missing_score_skip (st : Store) (g : Game)
    (h : g.home_score = none ∨ g.away_score = none) :
    stepGame st g = (st, none) ∧
      ∀ rest : List Game, processGames st (g :: rest) = processGames st rest := by
  have hstep : stepGame st g = (st, none) := by
    cases hh : g.home_score <;> cases ha : g.away_score <;> simp [stepGame, hh, ha]
    rcases h with h | h
    · rw [hh] at h; exact absurd h (Option.some_ne_none _)
    · rw [ha] at h; exact absurd h (Option.some_ne_none _)
  refine ⟨hstep, fun rest => ?_⟩
  simp [processGames, hstep]

/-- C5: when the whole pass produces zero (vector, label) pairs the pipeline
entry point fails with the fatal empty-result error, and a successful result
handed to the splitting/scaling stage is never an empty feature matrix. -/
theorem claim5_empty_result_error (gs : List Game) (sm : Nat → Option StatsAgg)
    (injTbl : List Nat) (wm : Nat → Option WeatherRow) (stbl : List (Nat × ℚ)) :
    (emits gs = [] →
      process_data gs sm injTbl wm stbl =
        Except.error "No features created! Check your data.")
    ∧ ∀ X y, process_data gs sm injTbl wm stbl = Except.ok (X, y) → X ≠ [] := by
  constructor
  · intro h
    simp [process_data, engineer_features, h]
  · intro X y h
    simp only [process_data, engineer_features] at h
    split at h
    · exact absurd h (by simp)
    · rename_i hlen
      rw [Except.ok.injEq, Prod.mk.injEq] at h
      intro hX
      exact hlen (by rw [h.1, hX]; simp)

/-- C6: per scored game between two distinct teams, the streak of each team
is updated by the run-length rule: a win extends a positive streak by one
and otherwise resets it to 1; a loss extends a non-positive streak downward
by one and otherwise resets it to -1. -/
theorem claim6_streak_rule (st : Store) (g : Game) (hsc asc : Int)
    (h1 : g.home_score = some hsc) (h2 : g.away_score = some asc)
    (hne : g.home_team_id ≠ g.away_team_id) :
    ((stepGame st g).1 g.home_team_id).streak =
      (if hsc > asc then
        (if (st g.home_team_id).streak > 0 then (st g.home_team_id).streak + 1 else 1)
       else
        (if (st g.home_team_id).streak > 0 then -1 else (st g.home_team_id).streak - 1))
    ∧ ((stepGame st g).1 g.away_team_id).streak =
      (if hsc > asc then
        (if (st g.away_team_id).streak > 0 then -1 else (st g.away_team_id).streak - 1)
       else
        (if (st g.away_team_id).streak > 0 then (st g.away_team_id).streak + 1 else 1)) := by
  constructor
  · rw [stepGame_fst_scored st g hsc asc h1 h2, updateStates_apply_home st _ _ _ _ hne]
    by_cases hw : hsc > asc <;> simp [homeUpdate, hw]
  · rw [stepGame_fst_scored st g hsc asc h1 h2, updateStates_apply_away st _ _ _ _ hne]
    by_cases hw : hsc > asc <;> simp [awayUpdate, hw]

/-- C8: the feature-engineering pass is deterministic; two runs on identical
input tables produce identical feature matrices and label sequences. -/
theorem claim8_deterministic (gs1 gs2 : List Game)
    (sm1 sm2 : Nat → Option StatsAgg) (inj1 inj2 : List Nat)
    (wm1 wm2 : Nat → Option WeatherRow) (stbl1 stbl2 : List (Nat × ℚ))
    (hg : gs1 = gs2) (hsm : sm1 = sm2) (hi : inj1 = inj2) (hw : wm1 = wm2)
    (hst : stbl1 = stbl2) :
    engineer_features gs1 sm1 inj1 wm1 stbl1 =
      engineer_features gs2 sm2 inj2 wm2 stbl2 := by
  subst hg hsm hi hw hst
  rfl

theorem featuresOf_get_6 (lk : Lookups) (s : Snapshot) :
    (featuresOf lk s)[6]? = some ((recentFormFeature s.home.recent_form : ℚ) : ℝ) := rfl

theorem featuresOf_get_7 (lk : Lookups) (s : Snapshot) :
    (featuresOf lk s)[7]? = some ((recentFormFeature s.away.recent_form : ℚ) : ℝ) := rfl

theorem featuresOf_get_13 (lk : Lookups) (s : Snapshot) :
    (featuresOf lk s)[13]? =
      some ((min (((lk.injuries_by_team s.game.home_team_id).getD 0 : ℚ) / 5) 1 : ℚ) : ℝ) := rfl

theorem featuresOf_get_14 (lk : Lookups) (s : Snapshot) :
    (featuresOf lk s)[14]? =
      some ((min (((lk.injuries_by_team s.game.away_team_id).getD 0 : ℚ) / 5) 1 : ℚ) : ℝ) := rfl

theorem featuresOf_get_17 (lk : Lookups) (s : Snapshot) :
    (featuresOf lk s)[17]? =
      some (Real.tanh (((lk.sentiment_by_team s.game.home_team_id).getD 0 : ℚ) : ℝ)) := rfl

theorem featuresOf_get_18 (lk : Lookups) (s : Snapshot) :
    (featuresOf lk s)[18]? =
      some (Real.tanh (((lk.sentiment_by_team s.game.away_team_id).getD 0 : ℚ) : ℝ)) := rfl

theorem buildInjuries_getD (tbl : List Nat) (t : Nat) :
    (buildInjuries tbl t).getD 0 = (tbl.filter (fun r => r = t)).length := by
  by_cases hc : (tbl.filter (fun r => r = t)).length = 0 <;>
    simp [buildInjuries, hc]

/-- C7 (amended): in the canonical implementation every emitted pair carries
injury features `min(count/5, 1)` for home (position 14) and away
(position 15), both within `[0, 1]`, with the count read as 0 for a team
absent from the injury lookup (in particular with no injury rows). -/
theorem claim7_injury_features_capped (lk : Lookups) (gs : List Game)
    (s : Snapshot) (h : s ∈ emits gs) :
    (featuresOf lk s)[13]? =
      some ((min (((lk.injuries_by_team s.game.home_team_id).getD 0 : ℚ) / 5) 1 : ℚ) : ℝ)
    ∧ 0 ≤ min (((lk.injuries_by_team s.game.home_team_id).getD 0 : ℚ) / 5) 1
    ∧ min (((lk.injuries_by_team s.game.home_team_id).getD 0 : ℚ) / 5) 1 ≤ 1
    ∧ (featuresOf lk s)[14]? =
      some ((min (((lk.injuries_by_team s.game.away_team_id).getD 0 : ℚ) / 5) 1 : ℚ) : ℝ)
    ∧ 0 ≤ min (((lk.injuries_by_team s.game.away_team_id).getD 0 : ℚ) / 5) 1
    ∧ min (((lk.injuries_by_team s.game.away_team_id).getD 0 : ℚ) / 5) 1 ≤ 1
    ∧ ∀ (tbl : List Nat) (t : Nat),
        (buildInjuries tbl t).getD 0 = (tbl.filter (fun r => r = t)).length := by
  refine ⟨featuresOf_get_13 lk s, ?_, min_le_right _ _,
    featuresOf_get_14 lk s, ?_, min_le_right _ _, buildInjuries_getD⟩ <;>
    exact le_min (by positivity) zero_le_one

/-- C7 (counterexample to the claim as stated): the legacy condensed variant
emits, for a home team with seven injury rows, the raw count 7 as feature 14;
7 is not `min(7/5, 1)` and does not lie in `[0, 1]`. -/
theorem claim7_uncapped_counterexample :
    snapW1 ∈ emits gsW
    ∧ (condensed_engineer_features gsW smW injTblC wmW []).1.map (fun v => v[13]?) =
        [some 7, some 7]
    ∧ (condensedFeaturesOf lkC snapW1)[13]? = some 7
    ∧ ¬ (7 : ℚ) = min ((7 : ℚ) / 5) 1
    ∧ ¬ (7 : ℚ) ≤ 1 := by
  refine ⟨by decide, by decide, by decide, ?_, by norm_num⟩
  rw [min_def]
  norm_num

/-- C9: every team's recent-form window holds exactly `min(games, 10)`
entries after every prefix of processing; hence an emitted snapshot has at
least 5 entries of form per team, the form features 7 and 8 are means of
exactly the last five outcomes, and the 0.5 empty-form default is never used
in an emitted vector. -/
theorem claim9_recent_form_window :
    (∀ (gs : List Game) (k t : Nat),
      ((processGames initStore (gs.take k)).1 t).recent_form.length =
        min ((processGames initStore (gs.take k)).1 t).games 10)
    ∧ ∀ (lk : Lookups) (gs : List Game) (s : Snapshot), s ∈ emits gs →
        5 ≤ s.home.recent_form.length ∧ 5 ≤ s.away.recent_form.length
        ∧ (featuresOf lk s)[6]? =
            some ((listMean (lastN 5 s.home.recent_form) : ℚ) : ℝ)
        ∧ (lastN 5 s.home.recent_form).length = 5
        ∧ (featuresOf lk s)[7]? =
            some ((listMean (lastN 5 s.away.recent_form) : ℚ) : ℝ)
        ∧ (lastN 5 s.away.recent_form).length = 5 := by
  constructor
  · intro gs k t
    exact (processGames_fst_inv initStore (gs.take k) initStore_inv t).2
  · intro lk gs s hs
    obtain ⟨hg1, hg2, hi1, hi2⟩ := processGames_snd_mem gs initStore initStore_inv s hs
    have hl1 : 5 ≤ s.home.recent_form.length := by
      rw [hi1.2]; omega
    have hl2 : 5 ≤ s.away.recent_form.length := by
      rw [hi2.2]; omega
    refine ⟨hl1, hl2, ?_, ?_, ?_, ?_⟩
    · rw [featuresOf_get_6, recentFormFeature_eq_of_len _ hl1]
    · rw [lastN_length]; omega
    · rw [featuresOf_get_7, recentFormFeature_eq_of_len _ hl2]
    · rw [lastN_length]; omega

/-- C10: within one run the injury and sentiment lookups are fixed functions
of the team id alone, so any two emitted pairs sharing the home team id agree
on features 14 and 18, and any two sharing the away team id agree on
features 15 and 19. -/
theorem claim10_lookup_constancy (lk : Lookups) (gs : List Game)
    (s1 s2 : Snapshot) (h1 : s1 ∈ emits gs) (h2 : s2 ∈ emits gs) :
    (s1.game.home_team_id = s2.game.home_team_id →
      (featuresOf lk s1)[13]? = (featuresOf lk s2)[13]? ∧
      (featuresOf lk s1)[17]? = (featuresOf lk s2)[17]?)
    ∧ (s1.game.away_team_id = s2.game.away_team_id →
      (featuresOf lk s1)[14]? = (featuresOf lk s2)[14]? ∧
      (featuresOf lk s1)[18]? = (featuresOf lk s2)[18]?) := by
  constructor
  · intro hid
    rw [featuresOf_get_13, featuresOf_get_13, featuresOf_get_17, featuresOf_get_17, hid]
    exact ⟨rfl, rfl⟩
  · intro hid
    rw [featuresOf_get_14, featuresOf_get_14, featuresOf_get_18, featuresOf_get_18, hid]
    exact ⟨rfl, rfl⟩

theorem claim1_warmup_gate_witness :
    (mkGame 1 1 2 (some 2) (some 1)).home_score = some 2
    ∧ (mkGame 1 1 2 (some 2) (some 1)).away_score = some 1
    ∧ (((stepGame initStore (mkGame 1 1 2 (some 2) (some 1))).2.isSome ↔
        5 ≤ (initStore 1).games ∧ 5 ≤ (initStore 2).games)
      ∧ (stepGame initStore (mkGame 1 1 2 (some 2) (some 1))).1 =
          updateStates initStore 1 2 2 1) :=
  ⟨rfl, rfl, claim1_warmup_gate initStore (mkGame 1 1 2 (some 2) (some 1)) 2 1 rfl rfl⟩

theorem claim3_label_rule_witness :
    snapW1 ∈ emits gsW
    ∧ ((labelOf snapW1 = 1 ↔ snapW1.asc < snapW1.hsc)
      ∧ (snapW1.hsc = snapW1.asc → labelOf snapW1 = 0)) :=
  ⟨by decide, claim3_label_rule gsW snapW1 (by decide)⟩

theorem claim4_missing_score_skip_witness :
    ((mkGame 9 1 2 (some 3) none).home_score = none ∨
      (mkGame 9 1 2 (some 3) none).away_score = none)
    ∧ (stepGame initStore (mkGame 9 1 2 (some 3) none) = (initStore, none)
      ∧ ∀ rest : List Game,
          processGames initStore (mkGame 9 1 2 (some 3) none :: rest) =
            processGames initStore rest) :=
  ⟨Or.inr rfl, claim4_missing_score_skip initStore (mkGame 9 1 2 (some 3) none) (Or.inr rfl)⟩

theorem claim5_empty_result_error_witness :
    emits ([] : List Game) = []
    ∧ process_data [] smW [] wmW [] =
        Except.error "No features created! Check your data." :=
  ⟨rfl, (claim5_empty_result_error [] smW [] wmW []).1 rfl⟩

theorem claim6_streak_rule_witness :
    (mkGame 1 1 2 (some 2) (some 3)).home_score = some 2
    ∧ (mkGame 1 1 2 (some 2) (some 3)).away_score = some 3
    ∧ (mkGame 1 1 2 (some 2) (some 3)).home_team_id ≠
        (mkGame 1 1 2 (some 2) (some 3)).away_team_id
    ∧ (((stepGame initStore (mkGame 1 1 2 (some 2) (some 3))).1 1).streak =
        (if (2 : Int) > 3 then
          (if (initStore 1).streak > 0 then (initStore 1).streak + 1 else 1)
         else
          (if (initStore 1).streak > 0 then -1 else (initStore 1).streak - 1))
      ∧ ((stepGame initStore (mkGame 1 1 2 (some 2) (some 3))).1 2).streak =
        (if (2 : Int) > 3 then
          (if (initStore 2).streak > 0 then -1 else (initStore 2).streak - 1)
         else
          (if (initStore 2).streak > 0 then (initStore 2).streak + 1 else 1))) :=
  ⟨rfl, rfl, by decide,
    claim6_streak_rule initStore (mkGame 1 1 2 (some 2) (some 3)) 2 3 rfl rfl (by decide)⟩

theorem claim7_injury_features_capped_witness :
    snapW1 ∈ emits gsW
    ∧ ((featuresOf lkC snapW1)[13]? =
        some ((min (((lkC.injuries_by_team snapW1.game.home_team_id).getD 0 : ℚ) / 5) 1 : ℚ) : ℝ)
      ∧ 0 ≤ min (((lkC.injuries_by_team snapW1.game.home_team_id).getD 0 : ℚ) / 5) 1
      ∧ min (((lkC.injuries_by_team snapW1.game.home_team_id).getD 0 : ℚ) / 5) 1 ≤ 1
      ∧ (featuresOf lkC snapW1)[14]? =
        some ((min (((lkC.injuries_by_team snapW1.game.away_team_id).getD 0 : ℚ) / 5) 1 : ℚ) : ℝ)
      ∧ 0 ≤ min (((lkC.injuries_by_team snapW1.game.away_team_id).getD 0 : ℚ) / 5) 1
      ∧ min (((lkC.injuries_by_team snapW1.game.away_team_id).getD 0 : ℚ) / 5) 1 ≤ 1
      ∧ ∀ (tbl : List Nat) (t : Nat),
          (buildInjuries tbl t).getD 0 = (tbl.filter (fun r => r = t)).length) :=
  ⟨by decide, claim7_injury_features_capped lkC gsW snapW1 (by decide)⟩

theorem claim8_deterministic_witness :
    gsW = gsW
    ∧ engineer_features gsW smW injTblC wmW [] =
        engineer_features gsW smW injTblC wmW [] :=
  ⟨rfl, claim8_deterministic gsW gsW smW smW injTblC injTblC wmW wmW [] []
    rfl rfl rfl rfl rfl⟩

theorem claim9_recent_form_window_witness :
    snapW1 ∈ emits gsW
    ∧ (5 ≤ snapW1.home.recent_form.length ∧ 5 ≤ snapW1.away.recent_form.length
      ∧ (featuresOf lkC snapW1)[6]? =
          some ((listMean (lastN 5 snapW1.home.recent_form) : ℚ) : ℝ)
      ∧ (lastN 5 snapW1.home.recent_form).length = 5
      ∧ (featuresOf lkC snapW1)[7]? =
          some ((listMean (lastN 5 snapW1.away.recent_form) : ℚ) : ℝ)
      ∧ (lastN 5 snapW1.away.recent_form).length = 5) :=
  ⟨by decide, claim9_recent_form_window.2 lkC gsW snapW1 (by decide)⟩

theorem claim10_lookup_constancy_witness :
    snapW1 ∈ emits gsW
    ∧ snapW2 ∈ emits gsW
    ∧ ((snapW1.game.home_team_id = snapW2.game.home_team_id →
        (featuresOf lkC snapW1)[13]? = (featuresOf lkC snapW2)[13]? ∧
        (featuresOf lkC snapW1)[17]? = (featuresOf lkC snapW2)[17]?)
      ∧ (snapW1.game.away_team_id = snapW2.game.away_team_id →
        (featuresOf lkC snapW1)[14]? = (featuresOf lkC snapW2)[14]? ∧
        (featuresOf lkC snapW1)[18]? = (featuresOf lkC snapW2)[18]?)) :=
  ⟨by decide, by decide,
    claim10_lookup_constancy lkC gsW snapW1 snapW2 (by decide) (by decide)⟩
